import Mathlib

/-!
Shallow embedding of `src/nota/renderScores.py` (the nota score-rendering
pipeline) and proofs about it.

Modelling conventions:
* Python floats are modelled by exact rationals (`ℚ`); the constants and
  inputs involved are decimal literals, and every claim is stated with the
  same arithmetic the spec uses.
* A Python function that can raise an uncaught exception is modelled as an
  `Option`-valued function, `none` standing for the raised exception.
* External effects (filesystem, the verovio engine, the `mscore` subprocess,
  the process pool) are modelled by explicit environment records recording
  the answers the externals give, and by result records recording what the
  code wrote or returned.
-/

namespace Nota

/-! ### Python string primitives used by the script -/

/-- The character class of the regex `[0-9.]` in `parse_latex_dimension`. -/
def isNumChar (c : Char) : Bool := c.isDigit || c == '.'

/-- `re.match(r"([0-9.]+)", s)`: the longest nonempty prefix of `s` drawn from
`[0-9.]`, or `none` when the regex does not match at position 0. -/
def reMatchNum (s : String) : Option String :=
  let p := s.data.takeWhile isNumChar
  if p.isEmpty then none else some (String.mk p)

/-- Value of a (possibly empty) digit string, most significant digit first. -/
def digitsVal (l : List Char) : Nat := l.foldl (fun a c => a * 10 + (c.toNat - 48)) 0

/-- Python `float()` restricted to strings over `[0-9.]` (the only strings it
receives in this program): it succeeds iff the string has at least one digit
and at most one dot, and then denotes `intpart.fracpart` as a rational. -/
def pyFloat (s : String) : Option ℚ :=
  let cs := s.data
  if cs.all isNumChar && cs.any Char.isDigit && cs.countP (fun c => c == '.') ≤ 1 then
    let ip := cs.takeWhile (fun c => c ≠ '.')
    let fp := (cs.dropWhile (fun c => c ≠ '.')).drop 1
    some ((digitsVal ip : ℚ) + (digitsVal fp : ℚ) / (10 : ℚ) ^ fp.length)
  else none

/-- Python `int()` on a float: truncation toward zero. -/
def pyTrunc (q : ℚ) : ℤ := if 0 ≤ q then ⌊q⌋ else -⌊-q⌋

/-- A Python number as returned by `parse_latex_dimension`: either an `int`
or a `float` (the function returns the float `0.0` on one branch). -/
inductive PyNum where
  | int (n : ℤ)
  | float (q : ℚ)
deriving DecidableEq, Repr

/-- The numeric value carried by a `PyNum`, ignoring its Python type. -/
def PyNum.toRat : PyNum → ℚ
  | .int n => (n : ℚ)
  | .float q => q

/-! ### `parse_latex_dimension` (the Dimension Resolver) -/

/-- `parse_latex_dimension(dim_str)` from `renderScores.py`.
`none` models an uncaught exception (`AttributeError` when the regex does not
match, `ValueError` when `float()` rejects the matched text). The Python
`if dimension_in_pixels:` test is integer truthiness, i.e. `≠ 0`. -/
def parse_latex_dimension (dim_str : String) : Option PyNum := do
  let g ← reMatchNum dim_str
  let dimension_in_pt ← pyFloat g
  let dimension_in_mm := dimension_in_pt * (3527 / 10000 : ℚ)
  let dimension_in_pixels := pyTrunc (dimension_in_mm * 10)
  if dimension_in_pixels ≠ 0 then
    return .int dimension_in_pixels
  return .float 0

lemma takeWhile_append_of_all {p : Char → Bool} :
    ∀ (l m : List Char), l.all p → (∀ c, m.head? = some c → p c = false) →
      (l ++ m).takeWhile p = l := by
  intro l m hl hm
  induction l with
  | nil =>
    cases m with
    | nil => rfl
    | cons c cs =>
      simp [List.takeWhile_cons, hm c rfl]
  | cons a l ih =>
    have ha : p a = true := by
      have := hl
      simp [List.all_cons] at this
      exact this.1
    have hl' : l.all p := by
      have := hl
      simp [List.all_cons] at this
      simpa using this.2
    simp [List.takeWhile_cons, ha, ih hl']

lemma pyFloat_all_numChar {s : String} {q : ℚ} (h : pyFloat s = some q) :
    s.data.all isNumChar = true ∧ s.data ≠ [] := by
  unfold pyFloat at h
  by_cases hc : (s.data.all isNumChar && s.data.any Char.isDigit &&
      s.data.countP (fun c => c == '.') ≤ 1)
  · refine ⟨?_, ?_⟩
    · simp only [Bool.and_eq_true, decide_eq_true_eq] at hc
      exact hc.1.1
    · intro hnil
      simp only [Bool.and_eq_true, decide_eq_true_eq] at hc
      rcases hc with ⟨⟨-, hd⟩, -⟩
      rw [hnil] at hd
      simp at hd
  · simp [hc] at h

lemma reMatchNum_append {num suffix : String} {q : ℚ}
    (hq : pyFloat num = some q)
    (hs : ∀ c, suffix.data.head? = some c → isNumChar c = false) :
    reMatchNum (num ++ suffix) = some num := by
  obtain ⟨hall, hne⟩ := pyFloat_all_numChar hq
  unfold reMatchNum
  have hdata : (num ++ suffix).data = num.data ++ suffix.data := by
    simp [String.data_append]
  rw [hdata, takeWhile_append_of_all num.data suffix.data hall hs]
  have : ¬ num.data.isEmpty := by
    cases h : num.data with
    | nil => exact absurd h hne
    | cons a l => simp [List.isEmpty]
  simp only [this, if_false]
  cases num
  rfl

/-- C1. For every valid length string — a decimal number (accepted by
`float()`) followed by a unit suffix whose first character is outside the
regex class `[0-9.]` — the Dimension Resolver returns, as a numeric value,
the truncation-to-integer of `N * 0.3527 * 10`. -/
theorem C1_dimension_resolver (num suffix : String) (q : ℚ)
    (hq : pyFloat num = some q)
    (hs : ∀ c, suffix.data.head? = some c → isNumChar c = false) :
    Option.map PyNum.toRat (parse_latex_dimension (num ++ suffix)) =
      some ((pyTrunc (q * (3527 / 10000 : ℚ) * 10) : ℤ) : ℚ) := by
  unfold parse_latex_dimension
  rw [reMatchNum_append hq hs]
  simp only [Option.bind_eq_bind, Option.some_bind, hq]
  by_cases h0 : pyTrunc (q * (3527 / 10000 : ℚ) * 10) = 0
  · simp [h0, PyNum.toRat]
  · simp [h0, PyNum.toRat]

lemma pyFloat_430 : pyFloat "430.0" = some 430 := by
  have hd : ("430.0" : String).data = ['4', '3', '0', '.', '0'] := by decide
  unfold pyFloat
  rw [hd]
  simp +decide [digitsVal]

lemma pyFloat_02 : pyFloat "0.2" = some (2 / 10) := by
  have hd : ("0.2" : String).data = ['0', '.', '2'] := by decide
  unfold pyFloat
  rw [hd]
  simp +decide [digitsVal]

lemma pyTrunc_430 : pyTrunc ((430 : ℚ) * (3527 / 10000 : ℚ) * 10) = 1516 := by
  unfold pyTrunc
  norm_num

lemma pyTrunc_02 : pyTrunc ((2 / 10 : ℚ) * (3527 / 10000 : ℚ) * 10) = 0 := by
  unfold pyTrunc
  norm_num

/-- Witness for C1, at the spec's own example: `"430.0pt"` resolves to the
value `1516`. -/
theorem C1_witness :
    Option.map PyNum.toRat (parse_latex_dimension ("430.0" ++ "pt")) = some (1516 : ℚ) := by
  have h := C1_dimension_resolver "430.0" "pt" 430 pyFloat_430
    (by intro c hc; simp at hc; rw [← hc]; decide)
  rw [h, pyTrunc_430]
  norm_num

/-- C10. On every valid input whose value `N * 0.3527 * 10` truncates to
zero, `parse_latex_dimension` returns the Python float `0.0`; on every other
valid input it returns a (nonzero) Python int. -/
theorem C10_zero_is_float (s g : String) (q : ℚ)
    (hm : reMatchNum s = some g) (hq : pyFloat g = some q) :
    (pyTrunc (q * (3527 / 10000 : ℚ) * 10) = 0 →
      parse_latex_dimension s = some (.float 0)) ∧
    (pyTrunc (q * (3527 / 10000 : ℚ) * 10) ≠ 0 →
      parse_latex_dimension s = some (.int (pyTrunc (q * (3527 / 10000 : ℚ) * 10)))) := by
  constructor
  · intro h0
    unfold parse_latex_dimension
    rw [hm]
    simp [hq, h0]
  · intro h0
    unfold parse_latex_dimension
    rw [hm]
    simp [hq, h0]

/-- Witness for C10: `"0.2pt"` (value `0.7054`, truncating to `0`) yields the
float `0.0`, while `"430.0pt"` yields the int `1516`. -/
theorem C10_witness :
    parse_latex_dimension "0.2pt" = some (.float 0) ∧
    parse_latex_dimension "430.0pt" = some (.int 1516) := by
  constructor
  · exact (C10_zero_is_float "0.2pt" "0.2" (2 / 10) (by decide) pyFloat_02).1 pyTrunc_02
  · have h := (C10_zero_is_float "430.0pt" "430.0" 430 (by decide) pyFloat_430).2
      (by rw [pyTrunc_430]; decide)
    rw [h, pyTrunc_430]

/-! ### The directive parser stage of `process_request` -/

/-- `str.split(sep, maxsplit)` worker: consumes the remaining characters,
with `budget` separators still allowed to split and `acc` the (reversed)
characters of the current field. -/
def pySplitAux (sep : Char) : List Char → Nat → List Char → List String
  | [], _, acc => [String.mk acc.reverse]
  | c :: cs, budget, acc =>
    if c == sep then
      match budget with
      | 0 => [String.mk (acc.reverse ++ c :: cs)]
      | b + 1 => String.mk acc.reverse :: pySplitAux sep cs b []
    else pySplitAux sep cs budget (c :: acc)

/-- Python `s.split(sep, maxsplit)` for a one-character separator: at most
`maxsplit` splits are performed, so at most `maxsplit + 1` parts come back;
overflow characters stay inside the last part. -/
def pySplit (s : String) (sep : Char) (maxsplit : Nat) : List String :=
  pySplitAux sep s.data maxsplit []

/-- Python `s.strip()`: drop whitespace from both ends. -/
def pyStrip (s : String) : String :=
  String.mk (((s.data.dropWhile Char.isWhitespace).reverse.dropWhile Char.isWhitespace).reverse)

/-- The eleven pipe-delimited fields of one directive line, exactly as
unpacked by `process_request`. -/
structure ScoreRequest where
  score_id : String
  score_type : String
  file_path_str : String
  font : String
  unit : String
  paperwidth_str : String
  paperheight_str : String
  topmargin_str : String
  bottommargin_str : String
  oddsidemargin_str : String
  evensidemargin_str : String
deriving DecidableEq, Repr

/-- The parsing stage of `process_request(request, ...)`: strip the line,
return `None` when it is empty, split on `'|'` with `maxsplit = 10`, and
reject (`None`) unless exactly eleven parts come back; otherwise unpack the
parts into the eleven named fields. -/
def parseRequest (request : String) : Option ScoreRequest :=
  let r := pyStrip request
  if r = "" then none
  else
    let parts := pySplit r '|' 10
    if h : parts.length = 11 then
      some
        { score_id := parts.get ⟨0, by omega⟩
          score_type := parts.get ⟨1, by omega⟩
          file_path_str := parts.get ⟨2, by omega⟩
          font := parts.get ⟨3, by omega⟩
          unit := parts.get ⟨4, by omega⟩
          paperwidth_str := parts.get ⟨5, by omega⟩
          paperheight_str := parts.get ⟨6, by omega⟩
          topmargin_str := parts.get ⟨7, by omega⟩
          bottommargin_str := parts.get ⟨8, by omega⟩
          oddsidemargin_str := parts.get ⟨9, by omega⟩
          evensidemargin_str := parts.get ⟨10, by omega⟩ }
    else none

/-- The number of pipe-delimited fields of a line: one more than the number
of `'|'` characters (the length of an unbounded split). -/
def numFields (s : String) : Nat := s.data.countP (fun c => c == '|') + 1

lemma pySplitAux_length (sep : Char) :
    ∀ (l : List Char) (budget : Nat) (acc : List Char),
      (pySplitAux sep l budget acc).length =
        min (l.countP (fun c => c == sep) + 1) (budget + 1) := by
  intro l
  induction l with
  | nil => intro budget acc; simp [pySplitAux]
  | cons c cs ih =>
    intro budget acc
    by_cases hc : c == sep
    · cases budget with
      | zero =>
        have hcount : (c :: cs).countP (fun x => x == sep) + 1 ≥ 1 := by omega
        simp [pySplitAux, hc]
      | succ b =>
        have : (c :: cs).countP (fun x => x == sep) = cs.countP (fun x => x == sep) + 1 := by
          simp [List.countP_cons, hc]
        simp [pySplitAux, hc, ih, this]
        omega
    · have : (c :: cs).countP (fun x => x == sep) = cs.countP (fun x => x == sep) := by
        simp [List.countP_cons, hc]
      simp [pySplitAux, hc, ih, this]

lemma pySplit_length (s : String) (sep : Char) (maxsplit : Nat) :
    (pySplit s sep maxsplit).length =
      min (s.data.countP (fun c => c == sep) + 1) (maxsplit + 1) :=
  pySplitAux_length sep s.data maxsplit []

/-- C2 (amended). The parser rejects a directive line exactly when the
stripped line is empty or has fewer than eleven pipe-delimited fields; a
stripped nonempty line with eleven or more fields is accepted (the split is
capped at eleven parts, extra fields being absorbed into the last part). -/
theorem C2_field_count (s : String) :
    parseRequest s = none ↔ (pyStrip s = "" ∨ numFields (pyStrip s) < 11) := by
  unfold parseRequest
  by_cases he : pyStrip s = ""
  · simp [he]
  · simp only [he, if_false, false_or]
    have hlen := pySplit_length (pyStrip s) '|' 10
    by_cases h11 : (pySplit (pyStrip s) '|' 10).length = 11
    · simp only [h11, dite_true]
      constructor
      · intro h; exact absurd h (by simp)
      · intro hlt
        exfalso
        rw [hlen] at h11
        unfold numFields at hlt
        omega
    · simp only [h11, dite_false]
      constructor
      · intro _
        rw [hlen] at h11
        unfold numFields
        omega
      · intro _; trivial

/-- Counterexample to C2 as stated: a directive line with twelve
pipe-delimited fields is NOT rejected — `process_request` builds a request
from it, the twelfth field being absorbed into `evensidemargin_str`. -/
theorem C2_counterexample :
    numFields "a|b|c|d|e|f|g|h|i|j|k|l" = 12 ∧
    parseRequest "a|b|c|d|e|f|g|h|i|j|k|l" ≠ none ∧
    (parseRequest "a|b|c|d|e|f|g|h|i|j|k|l").map (fun r => r.evensidemargin_str) =
      some "k|l" := by
  refine ⟨by decide, ?_, ?_⟩ <;> decide

/-! ### The geometry policy of `process_request` -/

/-- The numeric value `parse_latex_dimension` hands back to `process_request`
(`none` when it raises). -/
def dimValue (s : String) : Option ℚ := (parse_latex_dimension s).map PyNum.toRat

/-- The `verovio_options` dictionary built by `process_request`: one field
per key the script can set, `none` meaning the key is absent. -/
structure EngineOptions where
  mmOutput : Bool := true
  footer : String := "none"
  unit : String
  font : String
  header : Option String := none
  breaks : Option String := none
  pageHeight : Option ℚ := none
  pageWidth : Option ℚ := none
  pageMarginTop : Option ℚ := none
  pageMarginBottom : Option ℚ := none
  pageMarginLeft : Option ℚ := none
  pageMarginRight : Option ℚ := none
  adjustPageHeight : Option Bool := none
  adjustPageWidth : Option Bool := none
  justifyVertically : Option Bool := none
deriving DecidableEq, Repr

/-- The option-building stage of `process_request` (lines 146–206 of the
script): resolve the six dimensions (in source order — a raised exception in
any resolution, `none`, aborts the request), derive text width/height, and
fill the options dictionary according to `score_type`. -/
def buildVerovioOptions (r : ScoreRequest) : Option EngineOptions := do
  let paperwidth_px ← dimValue r.paperwidth_str
  let paperheight_px ← dimValue r.paperheight_str
  let topmargin_px ← dimValue r.topmargin_str
  let bottommargin_px ← dimValue r.bottommargin_str
  let oddsidemargin_px ← dimValue r.oddsidemargin_str
  let evensidemargin_px ← dimValue r.evensidemargin_str
  let textwidth_px := paperwidth_px - oddsidemargin_px - evensidemargin_px
  let textheight_px := paperheight_px - topmargin_px - bottommargin_px
  let base : EngineOptions := { unit := r.unit, font := r.font }
  if r.score_type = "inline" then
    return { base with
      header := some "none"
      pageHeight := some 100
      pageWidth := some (textwidth_px + 100)
      adjustPageHeight := some true
      pageMarginTop := some 0
      pageMarginBottom := some 0 }
  else if r.score_type = "fullscore" then
    return { base with
      pageWidth := some (textwidth_px + 100)
      pageHeight := some (textheight_px + 100)
      pageMarginTop := some 0
      pageMarginBottom := some 120
      justifyVertically := some true
      adjustPageHeight := some true }
  else if r.score_type = "example" then
    return { base with
      header := some "none"
      breaks := some "encoded"
      pageWidth := some paperheight_px
      pageMarginLeft := some oddsidemargin_px
      pageMarginRight := some evensidemargin_px
      adjustPageHeight := some true
      adjustPageWidth := some true }
  else
    return base

/-! ### `render_score` (the Render Worker) -/

/-- Answers the externals give to one `render_score` call: the filesystem,
the `mscore` subprocess, and the verovio toolkit. -/
structure RenderEnv where
  /-- `input_file.is_file()` -/
  input_is_file : Bool
  /-- `input_file.suffix == ".mscz"` -/
  suffix_mscz : Bool
  /-- an exception is raised inside the conversion `try` block -/
  conv_raises : Bool
  /-- `subprocess.run(["mscore", ...]).returncode` -/
  conv_returncode : Int
  /-- `Path(temp_mxl.name).is_file()` after the converter ran -/
  conv_output_is_file : Bool
  /-- the toolkit raises in `setOptions`/`loadFile`/`getPageCount` -/
  load_raises : Bool
  /-- `tk.getPageCount()` -/
  page_count : Nat
  /-- `tk.renderToSVG(i)` raises for page `i` -/
  svg_render_fails : Nat → Bool
  /-- `convert_page_to_pdf` returns `(i, None)` for page `i` -/
  page_convert_fails : Nat → Bool

/-- What one `render_score` call returned and left behind. -/
structure RenderState where
  /-- the returned page count (`0` on every failure path) -/
  ret : Nat
  /-- a `NamedTemporaryFile(delete=False)` was created -/
  temp_created : Bool
  /-- `os.unlink(temp_mxl.name)` ran on it -/
  temp_removed : Bool
  /-- the page indices appended to the merger and written to `output_pdf`,
  `none` when no merged artifact was written -/
  merged_pages : Option (List Nat)
deriving DecidableEq, Repr

/-- The per-page temporary path `p{i}.pdf` used by `convert_page_to_pdf`. -/
def pagePath (i : Nat) : String := "p" ++ toString i ++ ".pdf"

/-- The comparison Python's `pages.sort(key=lambda x: x[0])` sorts by. -/
def pageLe (a b : Nat × String) : Bool := a.1 ≤ b.1

/-- `render_score` from the load stage on (the part after the optional
`.mscz` conversion). `tempCreated` says whether a temp `.mxl` exists; the
`finally` block of the load stage unlinks it on every path through this
stage. `arrival` is the order in which the pool's per-page conversion
results are consumed (a permutation of the submitted pages — concurrent
completion order is not page order). -/
def renderAfterConversion (env : RenderEnv) (arrival : List Nat) (tempCreated : Bool) :
    RenderState :=
  if env.load_raises then
    { ret := 0, temp_created := tempCreated, temp_removed := tempCreated, merged_pages := none }
  else if env.page_count = 0 then
    { ret := 0, temp_created := tempCreated, temp_removed := tempCreated, merged_pages := none }
  else if (List.range' 1 env.page_count).any env.svg_render_fails then
    { ret := 0, temp_created := tempCreated, temp_removed := tempCreated, merged_pages := none }
  else if arrival.any env.page_convert_fails then
    { ret := 0, temp_created := tempCreated, temp_removed := tempCreated, merged_pages := none }
  else
    let pages := arrival.map (fun i => (i, pagePath i))
    let sorted := pages.mergeSort pageLe
    { ret := env.page_count, temp_created := tempCreated, temp_removed := tempCreated,
      merged_pages := some (sorted.map Prod.fst) }

/-- `render_score(input_file, output_pdf, verovio_options)`. The early
returns of the `.mscz` conversion stage (nonzero converter status, missing
converter output, exception during conversion) happen before the
`try/finally` of the load stage, so they do not unlink the temp file. -/
def render_score (env : RenderEnv) (arrival : List Nat) : RenderState :=
  if env.input_is_file = false then
    { ret := 0, temp_created := false, temp_removed := false, merged_pages := none }
  else if env.suffix_mscz then
    if env.conv_raises then
      { ret := 0, temp_created := true, temp_removed := false, merged_pages := none }
    else if env.conv_returncode ≠ 0 ∨ env.conv_output_is_file = false then
      { ret := 0, temp_created := true, temp_removed := false, merged_pages := none }
    else
      renderAfterConversion env arrival true
  else
    renderAfterConversion env arrival false

/-! ### `process_request` end to end -/

/-- What one `process_request` call produced: its return value (`score_id`
on success, `None` otherwise), the merged artifact (as in `RenderState`),
and whether the `.tex` snippet file was written. -/
structure ProcessResult where
  retval : Option String
  merged_pages : Option (List Nat)
  snippet_written : Bool
deriving DecidableEq, Repr

/-- `process_request(request, project_root, output_dir)`: parse the line,
build the options (a raised dimension-resolution exception aborts with no
output), render, and write the snippet only when the returned page count is
positive. -/
def process_request (request : String) (env : RenderEnv) (arrival : List Nat) :
    ProcessResult :=
  match parseRequest request with
  | none => { retval := none, merged_pages := none, snippet_written := false }
  | some r =>
    match buildVerovioOptions r with
    | none => { retval := none, merged_pages := none, snippet_written := false }
    | some _ =>
      let st := render_score env arrival
      if st.ret > 0 then
        { retval := some r.score_id, merged_pages := st.merged_pages, snippet_written := true }
      else
        { retval := none, merged_pages := st.merged_pages, snippet_written := false }

/-! ### `main` (the Orchestrator) -/

/-- Answers the externals give to `main`: the command line, whether the
`.scores.aux` directive file exists, and its lines when it does. -/
structure MainEnv where
  argv : List String
  aux_file_is_file : Bool
  aux_lines : List String

/-- What `main` did: its exit status, whether it ensured the output
directory exists, and which request lines it dispatched to the pool. -/
structure MainResult where
  exit_code : Nat
  dir_created : Bool
  dispatched : List String
deriving DecidableEq, Repr

/-- `main()`: wrong argument count is a usage error (`sys.exit(message)`
exits with status 1); then the output directory is created
(`mkdir(exist_ok=True)`); a missing directive file then exits with
`sys.exit(0)` before reading or dispatching anything. -/
def main (env : MainEnv) : MainResult :=
  if env.argv.length ≠ 2 then
    { exit_code := 1, dir_created := false, dispatched := [] }
  else if env.aux_file_is_file = false then
    { exit_code := 0, dir_created := true, dispatched := [] }
  else
    { exit_code := 0, dir_created := true, dispatched := env.aux_lines }

/-! ### Failure-path lemmas shared by several claims -/

lemma render_score_missing_input {env : RenderEnv} (arrival : List Nat)
    (h : env.input_is_file = false) :
    render_score env arrival =
      { ret := 0, temp_created := false, temp_removed := false, merged_pages := none } := by
  unfold render_score
  simp [h]

lemma render_score_page_count_zero {env : RenderEnv} (arrival : List Nat)
    (h : env.page_count = 0) :
    (render_score env arrival).ret = 0 ∧ (render_score env arrival).merged_pages = none := by
  unfold render_score renderAfterConversion
  split_ifs <;> simp_all

lemma process_request_failure (request : String) (env : RenderEnv) (arrival : List Nat)
    (h : (render_score env arrival).ret = 0)
    (hm : (render_score env arrival).merged_pages = none) :
    process_request request env arrival =
      { retval := none, merged_pages := none, snippet_written := false } := by
  unfold process_request
  cases hp : parseRequest request with
  | none => simp
  | some r =>
    cases hb : buildVerovioOptions r with
    | none => simp [hb]
    | some o => simp [hb, h, hm]

/-- The environment of the C3 failing input: an existing `.mscz` source whose
`mscore` conversion exits with status 1. -/
def convFailEnv : RenderEnv :=
  { input_is_file := true, suffix_mscz := true, conv_raises := false,
    conv_returncode := 1, conv_output_is_file := true, load_raises := false,
    page_count := 1, svg_render_fails := fun _ => false,
    page_convert_fails := fun _ => false }

/-- C3 refuted on the code: on the conversion-failure exit path of
`render_score` (an `.mscz` input whose converter exits nonzero) the
temporary interchange file is created but never removed — the `finally`
that unlinks it guards only the later load stage. -/
theorem C3_temp_file_leak :
    (render_score convFailEnv [1]).ret = 0 ∧
    (render_score convFailEnv [1]).temp_created = true ∧
    (render_score convFailEnv [1]).temp_removed = false := by
  refine ⟨?_, ?_, ?_⟩ <;> rfl

/-- C6. When the source path does not resolve to an existing file, the
worker returns page count 0 and the request yields no merged artifact and
no snippet. -/
theorem C6_missing_source (request : String) (env : RenderEnv) (arrival : List Nat)
    (h : env.input_is_file = false) :
    (render_score env arrival).ret = 0 ∧
    process_request request env arrival =
      { retval := none, merged_pages := none, snippet_written := false } := by
  have h1 := render_score_missing_input arrival h
  exact ⟨by rw [h1], process_request_failure _ _ _ (by rw [h1]) (by rw [h1])⟩

/-- Witness for C6 at a concrete request and environment. -/
theorem C6_witness :
    (render_score
        { input_is_file := false, suffix_mscz := false, conv_raises := false,
          conv_returncode := 0, conv_output_is_file := true, load_raises := false,
          page_count := 3, svg_render_fails := fun _ => false,
          page_convert_fails := fun _ => false } [1, 2, 3]).ret = 0 ∧
    process_request "a|b|c|d|e|f|g|h|i|j|k"
        { input_is_file := false, suffix_mscz := false, conv_raises := false,
          conv_returncode := 0, conv_output_is_file := true, load_raises := false,
          page_count := 3, svg_render_fails := fun _ => false,
          page_convert_fails := fun _ => false } [1, 2, 3] =
      { retval := none, merged_pages := none, snippet_written := false } :=
  C6_missing_source "a|b|c|d|e|f|g|h|i|j|k" _ [1, 2, 3] rfl

/-- C7. When the loaded document reports zero pages, `render_score` returns
a failure result (the embedding is a total function — no exception), and no
merged artifact or snippet is produced. -/
theorem C7_zero_pages (request : String) (env : RenderEnv) (arrival : List Nat)
    (h : env.page_count = 0) :
    (render_score env arrival).ret = 0 ∧
    process_request request env arrival =
      { retval := none, merged_pages := none, snippet_written := false } := by
  obtain ⟨h1, h2⟩ := render_score_page_count_zero arrival h
  exact ⟨h1, process_request_failure _ _ _ h1 h2⟩

/-- Witness for C7 at a concrete request and environment. -/
theorem C7_witness :
    (render_score
        { input_is_file := true, suffix_mscz := false, conv_raises := false,
          conv_returncode := 0, conv_output_is_file := true, load_raises := false,
          page_count := 0, svg_render_fails := fun _ => false,
          page_convert_fails := fun _ => false } []).ret = 0 ∧
    process_request "a|b|c|d|e|f|g|h|i|j|k"
        { input_is_file := true, suffix_mscz := false, conv_raises := false,
          conv_returncode := 0, conv_output_is_file := true, load_raises := false,
          page_count := 0, svg_render_fails := fun _ => false,
          page_convert_fails := fun _ => false } [] =
      { retval := none, merged_pages := none, snippet_written := false } :=
  C7_zero_pages "a|b|c|d|e|f|g|h|i|j|k" _ [] rfl

/-- C9. With a single job-name argument and no directive file, `main` exits
with status 0, having created (at most) the output directory and dispatched
no request. -/
theorem C9_missing_directive (env : MainEnv)
    (hargs : env.argv.length = 2) (haux : env.aux_file_is_file = false) :
    main env = { exit_code := 0, dir_created := true, dispatched := [] } := by
  unfold main
  simp [hargs, haux]

/-- Witness for C9 at a concrete invocation. -/
theorem C9_witness :
    main { argv := ["renderScores.py", "thesis"], aux_file_is_file := false,
           aux_lines := [] } =
      { exit_code := 0, dir_created := true, dispatched := [] } :=
  C9_missing_directive _ rfl rfl

/-! ### Geometry-policy claims -/

/-- C4. For a well-formed `inline` request whose six dimensions resolve, the
options carry `pageHeight = 100`, `pageWidth = textWidth + 100` (text width
being paper width minus the two side margins), and zero top and bottom page
margins — whatever the paper-size inputs were. -/
theorem C4_inline_options (r : ScoreRequest) (opts : EngineOptions) (pw ph tm bm om em : ℚ)
    (hty : r.score_type = "inline")
    (hpw : dimValue r.paperwidth_str = some pw)
    (hph : dimValue r.paperheight_str = some ph)
    (htm : dimValue r.topmargin_str = some tm)
    (hbm : dimValue r.bottommargin_str = some bm)
    (hom : dimValue r.oddsidemargin_str = some om)
    (hem : dimValue r.evensidemargin_str = some em)
    (hopts : buildVerovioOptions r = some opts) :
    opts.pageHeight = some 100 ∧
    opts.pageWidth = some (pw - om - em + 100) ∧
    opts.pageMarginTop = some 0 ∧
    opts.pageMarginBottom = some 0 := by
  unfold buildVerovioOptions at hopts
  rw [hpw, hph, htm, hbm, hom, hem] at hopts
  simp [hty] at hopts
  rw [← hopts]
  exact ⟨rfl, rfl, rfl, rfl⟩

/-- C5. For a well-formed `example` request whose six dimensions resolve,
the options carry `pageWidth` equal to the resolved paper HEIGHT (the axis
swap), and the left/right page margins equal to the odd/even side margins. -/
theorem C5_example_options (r : ScoreRequest) (opts : EngineOptions) (pw ph tm bm om em : ℚ)
    (hty : r.score_type = "example")
    (hpw : dimValue r.paperwidth_str = some pw)
    (hph : dimValue r.paperheight_str = some ph)
    (htm : dimValue r.topmargin_str = some tm)
    (hbm : dimValue r.bottommargin_str = some bm)
    (hom : dimValue r.oddsidemargin_str = some om)
    (hem : dimValue r.evensidemargin_str = some em)
    (hopts : buildVerovioOptions r = some opts) :
    opts.pageWidth = some ph ∧
    opts.pageMarginLeft = some om ∧
    opts.pageMarginRight = some em := by
  unfold buildVerovioOptions at hopts
  rw [hpw, hph, htm, hbm, hom, hem] at hopts
  simp [hty] at hopts
  rw [← hopts]
  exact ⟨rfl, rfl, rfl⟩

lemma parse_430 : parse_latex_dimension "430.0pt" = some (.int 1516) := by
  unfold parse_latex_dimension
  rw [show reMatchNum "430.0pt" = some "430.0" from by decide]
  simp only [Option.bind_eq_bind, Option.some_bind, pyFloat_430]
  rw [pyTrunc_430]
  norm_num

lemma dim_430 : dimValue "430.0pt" = some 1516 := by
  rw [dimValue, parse_430]
  simp [PyNum.toRat]

/-- A concrete `inline` request whose six dimensions are all `"430.0pt"`. -/
def reqC4 : ScoreRequest :=
  { score_id := "ex1", score_type := "inline", file_path_str := "scores/a.mei",
    font := "Leipzig", unit := "9",
    paperwidth_str := "430.0pt", paperheight_str := "430.0pt",
    topmargin_str := "430.0pt", bottommargin_str := "430.0pt",
    oddsidemargin_str := "430.0pt", evensidemargin_str := "430.0pt" }

/-- A concrete `example` request whose six dimensions are all `"430.0pt"`. -/
def reqC5 : ScoreRequest :=
  { reqC4 with score_id := "ex2", score_type := "example" }

/-- Witness for C4 at the concrete request `reqC4`. -/
theorem C4_witness :
    ∃ opts, buildVerovioOptions reqC4 = some opts ∧
      opts.pageHeight = some 100 ∧
      opts.pageWidth = some ((1516 : ℚ) - 1516 - 1516 + 100) ∧
      opts.pageMarginTop = some 0 ∧
      opts.pageMarginBottom = some 0 := by
  have hopts : ∃ o, buildVerovioOptions reqC4 = some o := by
    unfold buildVerovioOptions reqC4
    simp [dim_430]
  obtain ⟨opts, hopts⟩ := hopts
  exact ⟨opts, hopts,
    C4_inline_options reqC4 opts 1516 1516 1516 1516 1516 1516 rfl
      dim_430 dim_430 dim_430 dim_430 dim_430 dim_430 hopts⟩

/-- Witness for C5 at the concrete request `reqC5`. -/
theorem C5_witness :
    ∃ opts, buildVerovioOptions reqC5 = some opts ∧
      opts.pageWidth = some (1516 : ℚ) ∧
      opts.pageMarginLeft = some (1516 : ℚ) ∧
      opts.pageMarginRight = some (1516 : ℚ) := by
  have hopts : ∃ o, buildVerovioOptions reqC5 = some o := by
    unfold buildVerovioOptions reqC5 reqC4
    simp [dim_430]
  obtain ⟨opts, hopts⟩ := hopts
  exact ⟨opts, hopts,
    C5_example_options reqC5 opts 1516 1516 1516 1516 1516 1516 rfl
      dim_430 dim_430 dim_430 dim_430 dim_430 dim_430 hopts⟩

/-! ### Merge-order claim -/

lemma pageLe_trans : ∀ a b c : Nat × String, pageLe a b → pageLe b c → pageLe a c := by
  intro a b c hab hbc
  simp only [pageLe, decide_eq_true_eq] at *
  omega

lemma pageLe_total : ∀ a b : Nat × String, pageLe a b || pageLe b a := by
  intro a b
  simp only [pageLe, Bool.or_eq_true, decide_eq_true_eq]
  omega

lemma map_fst_map_pair (g : Nat → String) (l : List Nat) :
    (l.map (fun i => (i, g i))).map Prod.fst = l := by
  induction l with
  | nil => rfl
  | cons a t ih => simp [ih]

lemma mergeSort_pageLe_eq_range' (n : Nat) (arrival : List Nat)
    (hperm : arrival.Perm (List.range' 1 n)) :
    ((arrival.map (fun i => (i, pagePath i))).mergeSort pageLe).map Prod.fst =
      List.range' 1 n := by
  set L := arrival.map (fun i => (i, pagePath i)) with hL
  have hfst : ((L.mergeSort pageLe).map Prod.fst).Perm (List.range' 1 n) := by
    have h1 : (L.mergeSort pageLe).Perm L := List.mergeSort_perm L pageLe
    have h2 := h1.map Prod.fst
    have h3 : L.map Prod.fst = arrival := by
      rw [hL]
      exact map_fst_map_pair pagePath arrival
    rw [h3] at h2
    exact h2.trans hperm
  have hsorted : (L.mergeSort pageLe).Pairwise (fun a b => pageLe a b = true) :=
    List.sorted_mergeSort pageLe_trans pageLe_total L
  have hle : ((L.mergeSort pageLe).map Prod.fst).Pairwise (· ≤ ·) := by
    rw [List.pairwise_map]
    exact hsorted.imp (by simp [pageLe])
  have hnd : ((L.mergeSort pageLe).map Prod.fst).Nodup :=
    hfst.nodup_iff.mpr (List.nodup_range' 1 n)
  have hlt : ((L.mergeSort pageLe).map Prod.fst).Pairwise (· < ·) :=
    (hle.and hnd).imp (fun h => lt_of_le_of_ne h.1 h.2)
  exact List.eq_of_perm_of_sorted hfst hlt (List.pairwise_lt_range' 1 n)

/-- C8. On a successful multi-page render, whatever order the concurrent
per-page conversions are consumed in (any permutation of the pages), the
pages appended to the merger are exactly `1, 2, …, pageCount` in strictly
ascending page order. -/
theorem C8_merge_order (env : RenderEnv) (arrival : List Nat)
    (hfile : env.input_is_file = true)
    (hmscz : env.suffix_mscz = false)
    (hload : env.load_raises = false)
    (hpc : env.page_count ≠ 0)
    (hsvg : (List.range' 1 env.page_count).any env.svg_render_fails = false)
    (hconv : arrival.any env.page_convert_fails = false)
    (hperm : arrival.Perm (List.range' 1 env.page_count)) :
    (render_score env arrival).merged_pages =
      some (List.range' 1 env.page_count) := by
  unfold render_score renderAfterConversion
  simp only [hfile, hmscz, hload, hpc, hsvg, hconv, Bool.false_eq_true, if_false, if_true]
  simp only [Bool.true_eq_false, if_false]
  rw [mergeSort_pageLe_eq_range' env.page_count arrival hperm]

/-- The environment of the C8 witness: a three-page render with no
failures. -/
def envC8 : RenderEnv :=
  { input_is_file := true, suffix_mscz := false, conv_raises := false,
    conv_returncode := 0, conv_output_is_file := true, load_raises := false,
    page_count := 3, svg_render_fails := fun _ => false,
    page_convert_fails := fun _ => false }

/-- Witness for C8: conversions consumed in order `2, 3, 1` still merge as
`1, 2, 3`. -/
theorem C8_witness :
    (render_score envC8 [2, 3, 1]).merged_pages = some [1, 2, 3] := by
  have h := C8_merge_order envC8 [2, 3, 1] rfl rfl rfl (by decide) (by decide)
    (by decide) (by decide)
  rw [h]
  rfl

end Nota
